import Mathlib

/-!
Verification development for the simplex-noise C library
(src/simplex_noise.c, include/simplex_noise.h).

Machine integers are modelled as Nat with explicit reduction modulo
2^32 / 2^64 at every operation that can wrap.  C doubles are modelled
as real numbers.  The process-wide mutable globals (permutation table,
PRNG state, configuration, cache bookkeeping) are gathered into an
explicit EngineState record that is passed and returned; time(NULL)
is an explicit Nat parameter of the initialization functions.
-/

namespace SimplexNoise

/-- Modulus of C uint32_t arithmetic. -/
def U32 : Nat := 2 ^ 32

/-- Modulus of C uint64_t arithmetic. -/
def U64 : Nat := 2 ^ 64

/-- PRNG state struct: all four algorithm states coexist, exactly as in the
C global `prng_state`.  `mersenne_state` holds 624 uint32 words and
`xorshift_state` holds 4 uint64 words. -/
structure PrngState where
  lcg_state : Nat
  mersenne_state : List Nat
  mersenne_index : Nat
  xorshift_state : List Nat
  pcg_state : Nat
  pcg_inc : Nat
deriving DecidableEq

/-- C `lcg_next`: state = state * 1103515245 + 12345 (uint32 wraparound),
returns the new state. -/
def lcg_next (s : PrngState) : Nat × PrngState :=
  let st := (s.lcg_state * 1103515245 + 12345) % U32
  (st, { s with lcg_state := st })

/-- Builds Mersenne-Twister words i, i+1, ..., given word i-1 = prev;
each word is (1812433253 * (prev xor (prev >> 30)) + i) mod 2^32. -/
def mersenne_fill (prev i : Nat) : Nat → List Nat
  | 0 => []
  | n + 1 =>
    let cur := (1812433253 * (prev ^^^ (prev >>> 30)) + i) % U32
    cur :: mersenne_fill cur (i + 1) n

/-- C `mersenne_init`: word 0 is the seed, words 1..623 from the recurrence. -/
def mersenne_init (seed : Nat) (s : PrngState) : PrngState :=
  { s with mersenne_state := seed :: mersenne_fill seed 1 623, mersenne_index := 0 }

/-- One iteration of the C `mersenne_generate` loop at index i, operating
in place on the 624-word block (reads of already-updated words included). -/
def mersenne_generate_step (mt : List Nat) (i : Nat) : List Nat :=
  let y := (mt.getD i 0 &&& 0x80000000) + (mt.getD ((i + 1) % 624) 0 &&& 0x7FFFFFFF)
  let v := mt.getD ((i + 397) % 624) 0 ^^^ (y >>> 1)
  let v := if y % 2 ≠ 0 then v ^^^ 0x9908B0DF else v
  mt.set i v

/-- C `mersenne_generate`: the in-place regeneration loop for i = 0..623. -/
def mersenne_generate (s : PrngState) : PrngState :=
  { s with mersenne_state := (List.range 624).foldl mersenne_generate_step s.mersenne_state }

/-- C `mersenne_next`: regenerate when the index is 0, then temper word
`mersenne_index` and advance the index modulo 624. -/
def mersenne_next (s : PrngState) : Nat × PrngState :=
  let s := if s.mersenne_index = 0 then mersenne_generate s else s
  let y := s.mersenne_state.getD s.mersenne_index 0
  let y := y ^^^ (y >>> 11)
  let y := y ^^^ (((y <<< 7) % U32) &&& 0x9D2C5680)
  let y := y ^^^ (((y <<< 15) % U32) &&& 0xEFC60000)
  let y := y ^^^ (y >>> 18)
  (y, { s with mersenne_index := (s.mersenne_index + 1) % 624 })

/-- C `xorshift_init`: the four 64-bit words seeded from the (promoted) seed. -/
def xorshift_init (seed : Nat) (s : PrngState) : PrngState :=
  { s with xorshift_state :=
      [seed, seed ^^^ 0x123456789ABCDEF0, seed ^^^ 0xFEDCBA9876543210,
       seed ^^^ 0x13579BDF2468ACE0] }

/-- C `xorshift_next`: shift-xor recurrence over the four uint64 words,
returning the new word 3. -/
def xorshift_next (s : PrngState) : Nat × PrngState :=
  let t := s.xorshift_state.getD 0 0
  let w := s.xorshift_state.getD 3 0
  let t := t ^^^ ((t <<< 11) % U64)
  let t := t ^^^ (t >>> 8)
  let new3 := t ^^^ w ^^^ (w >>> 19)
  (new3, { s with xorshift_state :=
      [s.xorshift_state.getD 1 0, s.xorshift_state.getD 2 0, w, new3] })

/-- C `pcg_next`: 64-bit LCG step plus xorshift/rotate output permutation,
all truncations to uint32 made explicit. -/
def pcg_next (s : PrngState) : Nat × PrngState :=
  let oldstate := s.pcg_state
  let s := { s with pcg_state := (oldstate * 6364136223846793005 + s.pcg_inc) % U64 }
  let xorshifted := (((oldstate >>> 18) ^^^ oldstate) >>> 27) % U32
  let rot := (oldstate >>> 59) % U32
  ((xorshifted >>> rot) ||| ((xorshifted <<< (((U32 - rot) % U32) &&& 31)) % U32), s)

/-- C `pcg_init`: zero state, odd increment from the seed, two advance steps
with the seed added in between. -/
def pcg_init (seed : Nat) (s : PrngState) : PrngState :=
  let s := { s with pcg_state := 0, pcg_inc := ((seed <<< 1) % U64) ||| 1 }
  let s := (pcg_next s).2
  let s := { s with pcg_state := (s.pcg_state + seed) % U64 }
  (pcg_next s).2

/-- C `prng_next`, dispatching on the enum value of `prng_type`
(0 = LCG, 1 = Mersenne Twister, 2 = Xorshift, 3 = PCG; any other
selector falls back to LCG, as in the C `default:` branch).  The
Xorshift result is truncated to uint32 on return, as by the C cast. -/
def prng_next (ptype : Nat) (s : PrngState) : Nat × PrngState :=
  match ptype with
  | 0 => lcg_next s
  | 1 => mersenne_next s
  | 2 => let r := xorshift_next s; (r.1 % U32, r.2)
  | 3 => pcg_next s
  | _ => lcg_next s

/-- C `prng_init`, dispatching exactly like `prng_next`; only the selected
algorithm's state fields are touched, the rest carry over. -/
def prng_init (ptype seed : Nat) (s : PrngState) : PrngState :=
  match ptype with
  | 0 => { s with lcg_state := seed }
  | 1 => mersenne_init seed s
  | 2 => xorshift_init seed s
  | 3 => pcg_init seed s
  | _ => { s with lcg_state := seed }

/-- Agreement of two PRNG states on the fields the selected algorithm
reads and writes (each C generator touches only its own part of the
`prng_state` struct; selectors outside 0..3 use the LCG fields via the
`default:` branch). -/
def sameAlgState (ptype : Nat) (s1 s2 : PrngState) : Prop :=
  match ptype with
  | 0 => s1.lcg_state = s2.lcg_state
  | 1 => s1.mersenne_state = s2.mersenne_state ∧ s1.mersenne_index = s2.mersenne_index
  | 2 => s1.xorshift_state = s2.xorshift_state
  | 3 => s1.pcg_state = s2.pcg_state ∧ s1.pcg_inc = s2.pcg_inc
  | _ => s1.lcg_state = s2.lcg_state

/-- C `simplex_config_t`, restricted to the fields the noise engine itself
reads (the config-file path strings and the file-persistence/diagnostic
fields are pure I/O glue, consumed only by the excluded config subsystem).
Enum fields are the underlying C integer values; the `enable_*` flags are
C ints tested against zero. -/
structure Config where
  prng_type : Nat
  noise_variant : Nat
  interp_type : Nat
  precision : Nat
  seed : Nat
  enable_simd : Int
  enable_caching : Int
  enable_profiling : Int
  persistence : ℝ
  lacunarity : ℝ
  octaves : Int
  frequency : ℝ
  amplitude : ℝ
  offset : ℝ
  scale : ℝ

/-- C `simplex_get_default_config` (engine-relevant fields): PCG PRNG (3),
classic variant (0), smoothstep interpolation (3), double precision (1),
seed 0, caching on, everything else per the C initializer. -/
noncomputable def simplex_get_default_config : Config :=
  { prng_type := 3, noise_variant := 0, interp_type := 3, precision := 1,
    seed := 0, enable_simd := 0, enable_caching := 1, enable_profiling := 0,
    persistence := 0.5, lacunarity := 2.0, octaves := 4, frequency := 1.0,
    amplitude := 1.0, offset := 0.0, scale := 1.0 }

/-- C cache entry: four keyed coordinates, the stored result, and the
validity flag (a C int). -/
structure CacheEntry where
  x : ℝ
  y : ℝ
  z : ℝ
  w : ℝ
  result : ℝ
  valid : Int

/-- C `simplex_perf_stats_t`. -/
structure PerfStats where
  generation_time : ℝ
  memory_used : Nat
  cache_hits : Nat
  cache_misses : Nat
  function_calls : Nat
  average_execution_time : ℝ

/-- The all-zero statistics record produced by the C memset. -/
def zeroStats : PerfStats :=
  { generation_time := 0, memory_used := 0, cache_hits := 0, cache_misses := 0,
    function_calls := 0, average_execution_time := 0 }

/-- The process-wide mutable globals of simplex_noise.c gathered into one
record: the 512-entry permutation table `perm`, the `initialized` flag
(named `inited` here), the stored `global_config`, the PRNG state, the
performance stats, the noise cache with its enable flag and hit/miss
counters, the profiling flag, and the function call counter. -/
structure EngineState where
  perm : List Nat
  inited : Int
  global_config : Config
  prng : PrngState
  perf_stats : PerfStats
  noise_cache : List CacheEntry
  cache_enabled : Int
  cache_hits : Int
  cache_misses : Int
  profiling_enabled : Int
  function_call_count : Nat

/-- The C swap `temp = perm[i]; perm[i] = perm[j]; perm[j] = temp`
on a list: the new entry at i is the old entry at j and vice versa. -/
def swapL (l : List Nat) (i j : Nat) : List Nat :=
  (l.set i (l.getD j 0)).set j (l.getD i 0)

/-- The Fisher-Yates loop of `simplex_noise_init_advanced`:
for i = n down to 1, draw j = prng_next() mod (i+1) and swap entries
i and j.  The counter argument is the current loop index i; the loop
body runs for indices n, n-1, ..., 1 and stops at 0 (C condition i > 0). -/
def fisher_yates (ptype : Nat) (st : PrngState) (l : List Nat) :
    Nat → List Nat × PrngState
  | 0 => (l, st)
  | i + 1 =>
    let r := prng_next ptype st
    let j := r.1 % (i + 2)
    fisher_yates ptype r.2 (swapL l (i + 1) j) i

/-- C `simplex_noise_init_advanced`.  A null configuration pointer is
`none` and yields status -1 with the globals untouched.  Otherwise the
config is copied, a zero seed is replaced by the time-derived value
(truncated to uint32), the selected PRNG is seeded, the permutation
table is rebuilt (identity 0..255, Fisher-Yates shuffle, then the
256 shuffled entries duplicated into slots 256..511 - here the table is
the shuffled first half appended to itself, which is what the slots
0..511 hold after the C copy loop), the perf stats and call counter are
zeroed, the cache validity flags are cleared and the cache enabled only
when `enable_caching` is set (the C code has no else branch), the
profiling flag is copied, and the initialized flag is set.  Returns 0. -/
def simplex_noise_init_advanced (config : Option Config) (timeNow : Nat)
    (s : EngineState) : Int × EngineState :=
  match config with
  | none => (-1, s)
  | some cfg =>
    let gc := if cfg.seed = 0 then { cfg with seed := timeNow % U32 } else cfg
    let prng1 := prng_init gc.prng_type gc.seed s.prng
    let sh := fisher_yates gc.prng_type prng1 (List.range 256) 255
    let table := sh.1 ++ sh.1
    (0, { perm := table,
          inited := 1,
          global_config := gc,
          prng := sh.2,
          perf_stats := zeroStats,
          noise_cache :=
            if gc.enable_caching ≠ 0 then
              s.noise_cache.map (fun e => { e with valid := 0 })
            else s.noise_cache,
          cache_enabled := if gc.enable_caching ≠ 0 then 1 else s.cache_enabled,
          cache_hits := s.cache_hits,
          cache_misses := s.cache_misses,
          profiling_enabled := gc.enable_profiling,
          function_call_count := 0 })

/-- C `simplex_noise_init`: default configuration with the given seed,
then `simplex_noise_init_advanced` (whose status is discarded). -/
noncomputable def simplex_noise_init (seed : Nat) (timeNow : Nat)
    (s : EngineState) : EngineState :=
  (simplex_noise_init_advanced
    (some { simplex_get_default_config with seed := seed }) timeNow s).2

/-- C `simplex_set_caching`: normalizes the flag to 0/1, stores it in the
config and the cache-enabled global, returns 0. -/
def simplex_set_caching (enable : Int) (s : EngineState) : Int × EngineState :=
  (0, { s with
        global_config :=
          { s.global_config with enable_caching := if enable ≠ 0 then 1 else 0 },
        cache_enabled := if enable ≠ 0 then 1 else 0 })

/-- C `dot2d`: dot product of a 2D gradient with an offset vector. -/
noncomputable def dot2d (g : ℝ × ℝ) (x y : ℝ) : ℝ := g.1 * x + g.2 * y

/-- C `dot3d`. -/
noncomputable def dot3d (g : ℝ × ℝ × ℝ) (x y z : ℝ) : ℝ :=
  g.1 * x + g.2.1 * y + g.2.2 * z

/-- C `dot4d`. -/
noncomputable def dot4d (g : ℝ × ℝ × ℝ × ℝ) (x y z w : ℝ) : ℝ :=
  g.1 * x + g.2.1 * y + g.2.2.1 * z + g.2.2.2 * w

/-- C `grad2`: the 8 fixed 2D gradient directions. -/
noncomputable def grad2 : List (ℝ × ℝ) :=
  [(1, 1), (-1, 1), (1, -1), (-1, -1), (1, 0), (-1, 0), (0, 1), (0, -1)]

/-- C `grad3`: the 12 fixed 3D gradient directions. -/
noncomputable def grad3 : List (ℝ × ℝ × ℝ) :=
  [(1, 1, 0), (-1, 1, 0), (1, -1, 0), (-1, -1, 0),
   (1, 0, 1), (-1, 0, 1), (1, 0, -1), (-1, 0, -1),
   (0, 1, 1), (0, -1, 1), (0, 1, -1), (0, -1, -1)]

/-- C `grad4`: the 32 fixed 4D gradient directions. -/
noncomputable def grad4 : List (ℝ × ℝ × ℝ × ℝ) :=
  [(0, 1, 1, 1), (0, 1, 1, -1), (0, 1, -1, 1), (0, 1, -1, -1),
   (0, -1, 1, 1), (0, -1, 1, -1), (0, -1, -1, 1), (0, -1, -1, -1),
   (1, 0, 1, 1), (1, 0, 1, -1), (1, 0, -1, 1), (1, 0, -1, -1),
   (-1, 0, 1, 1), (-1, 0, 1, -1), (-1, 0, -1, 1), (-1, 0, -1, -1),
   (1, 1, 0, 1), (1, 1, 0, -1), (1, -1, 0, 1), (1, -1, 0, -1),
   (-1, 1, 0, 1), (-1, 1, 0, -1), (-1, -1, 0, 1), (-1, -1, 0, -1),
   (1, 1, 1, 0), (1, 1, -1, 0), (1, -1, 1, 0), (1, -1, -1, 0),
   (-1, 1, 1, 0), (-1, 1, -1, 0), (-1, -1, 1, 0), (-1, -1, -1, 0)]

/-- C `fast_floor`: `x > 0 ? (int)x : (int)x - 1`.  The C cast to int
truncates toward zero, i.e. floor for positive and ceiling for
non-positive arguments; the translation keeps the source's quirk of
returning one less than the true floor at non-positive integers. -/
noncomputable def fast_floor (x : ℝ) : Int :=
  if x > 0 then ⌊x⌋ else ⌈x⌉ - 1

/-- C `i & 0xff` on a (possibly negative) two's-complement int index:
the non-negative residue modulo 256. -/
def and255 (i : Int) : Nat := (i % 256).toNat

/-- C `simplex_noise_1d`, the body after the lazy-init guard (the claims
fix an initialized engine, where the `if (!initialized)` branch is not
taken); `pm` is the 512-entry permutation table. -/
noncomputable def simplex_noise_1d (pm : List Nat) (x : ℝ) : ℝ :=
  let i0 := fast_floor x
  let i1 := i0 + 1
  let x0 := x - (i0 : ℝ)
  let x1 := x0 - 1.0
  let t0 := 1.0 - x0 * x0
  let t1 := 1.0 - x1 * x1
  let t0 := t0 * t0
  let t1 := t1 * t1
  let n0 := t0 * t0 * dot2d (grad2.getD (pm.getD (and255 i0) 0 &&& 7) (0, 0)) x0 0
  let n1 := t1 * t1 * dot2d (grad2.getD (pm.getD (and255 i1) 0 &&& 7) (0, 0)) x1 0
  70.0 * (n0 + n1)

/-- C `simplex_noise_2d`, the body after the lazy-init guard. -/
noncomputable def simplex_noise_2d (pm : List Nat) (x y : ℝ) : ℝ :=
  let F2 : ℝ := 0.5 * (Real.sqrt 3.0 - 1.0)
  let G2 : ℝ := (3.0 - Real.sqrt 3.0) / 6.0
  let s := (x + y) * F2
  let i := fast_floor (x + s)
  let j := fast_floor (y + s)
  let t := ((i + j : Int) : ℝ) * G2
  let x0 := x - ((i : ℝ) - t)
  let y0 := y - ((j : ℝ) - t)
  let ij1 : Nat × Nat := if x0 > y0 then (1, 0) else (0, 1)
  let i1 := ij1.1
  let j1 := ij1.2
  let x1 := x0 - (i1 : ℝ) + G2
  let y1 := y0 - (j1 : ℝ) + G2
  let x2 := x0 - 1.0 + 2.0 * G2
  let y2 := y0 - 1.0 + 2.0 * G2
  let ii := and255 i
  let jj := and255 j
  let gi0 := pm.getD (ii + pm.getD jj 0) 0 % 8
  let gi1 := pm.getD (ii + i1 + pm.getD (jj + j1) 0) 0 % 8
  let gi2 := pm.getD (ii + 1 + pm.getD (jj + 1) 0) 0 % 8
  let t0 := 0.5 - x0 * x0 - y0 * y0
  let n0 : ℝ :=
    if t0 ≥ 0 then
      let t0 := t0 * t0
      t0 * t0 * dot2d (grad2.getD gi0 (0, 0)) x0 y0
    else 0.0
  let t1 := 0.5 - x1 * x1 - y1 * y1
  let n1 : ℝ :=
    if t1 ≥ 0 then
      let t1 := t1 * t1
      t1 * t1 * dot2d (grad2.getD gi1 (0, 0)) x1 y1
    else 0.0
  let t2 := 0.5 - x2 * x2 - y2 * y2
  let n2 : ℝ :=
    if t2 ≥ 0 then
      let t2 := t2 * t2
      t2 * t2 * dot2d (grad2.getD gi2 (0, 0)) x2 y2
    else 0.0
  70.0 * (n0 + n1 + n2)

/-- C `simplex_noise_3d`, the body after the lazy-init guard.  The 6-way
corner-ordering branch returns ((i1,j1,k1),(i2,j2,k2)). -/
noncomputable def simplex_noise_3d (pm : List Nat) (x y z : ℝ) : ℝ :=
  let F3 : ℝ := 1.0 / 3.0
  let G3 : ℝ := 1.0 / 6.0
  let s := (x + y + z) * F3
  let i := fast_floor (x + s)
  let j := fast_floor (y + s)
  let k := fast_floor (z + s)
  let t := ((i + j + k : Int) : ℝ) * G3
  let x0 := x - ((i : ℝ) - t)
  let y0 := y - ((j : ℝ) - t)
  let z0 := z - ((k : ℝ) - t)
  let c : (Nat × Nat × Nat) × (Nat × Nat × Nat) :=
    if x0 ≥ y0 then
      if y0 ≥ z0 then ((1, 0, 0), (1, 1, 0))
      else if x0 ≥ z0 then ((1, 0, 0), (1, 0, 1))
      else ((0, 0, 1), (1, 0, 1))
    else
      if y0 < z0 then ((0, 0, 1), (0, 1, 1))
      else if x0 < z0 then ((0, 1, 0), (0, 1, 1))
      else ((0, 1, 0), (1, 1, 0))
  let i1 := c.1.1
  let j1 := c.1.2.1
  let k1 := c.1.2.2
  let i2 := c.2.1
  let j2 := c.2.2.1
  let k2 := c.2.2.2
  let x1 := x0 - (i1 : ℝ) + G3
  let y1 := y0 - (j1 : ℝ) + G3
  let z1 := z0 - (k1 : ℝ) + G3
  let x2 := x0 - (i2 : ℝ) + 2.0 * G3
  let y2 := y0 - (j2 : ℝ) + 2.0 * G3
  let z2 := z0 - (k2 : ℝ) + 2.0 * G3
  let x3 := x0 - 1.0 + 3.0 * G3
  let y3 := y0 - 1.0 + 3.0 * G3
  let z3 := z0 - 1.0 + 3.0 * G3
  let ii := and255 i
  let jj := and255 j
  let kk := and255 k
  let gi0 := pm.getD (ii + pm.getD (jj + pm.getD kk 0) 0) 0 % 12
  let gi1 := pm.getD (ii + i1 + pm.getD (jj + j1 + pm.getD (kk + k1) 0) 0) 0 % 12
  let gi2 := pm.getD (ii + i2 + pm.getD (jj + j2 + pm.getD (kk + k2) 0) 0) 0 % 12
  let gi3 := pm.getD (ii + 1 + pm.getD (jj + 1 + pm.getD (kk + 1) 0) 0) 0 % 12
  let t0 := 0.6 - x0 * x0 - y0 * y0 - z0 * z0
  let n0 : ℝ :=
    if t0 ≥ 0 then
      let t0 := t0 * t0
      t0 * t0 * dot3d (grad3.getD gi0 (0, 0, 0)) x0 y0 z0
    else 0.0
  let t1 := 0.6 - x1 * x1 - y1 * y1 - z1 * z1
  let n1 : ℝ :=
    if t1 ≥ 0 then
      let t1 := t1 * t1
      t1 * t1 * dot3d (grad3.getD gi1 (0, 0, 0)) x1 y1 z1
    else 0.0
  let t2 := 0.6 - x2 * x2 - y2 * y2 - z2 * z2
  let n2 : ℝ :=
    if t2 ≥ 0 then
      let t2 := t2 * t2
      t2 * t2 * dot3d (grad3.getD gi2 (0, 0, 0)) x2 y2 z2
    else 0.0
  let t3 := 0.6 - x3 * x3 - y3 * y3 - z3 * z3
  let n3 : ℝ :=
    if t3 ≥ 0 then
      let t3 := t3 * t3
      t3 * t3 * dot3d (grad3.getD gi3 (0, 0, 0)) x3 y3 z3
    else 0.0
  32.0 * (n0 + n1 + n2 + n3)

/-- The 64-entry combinatorial corner-ordering table of C
`simplex_noise_4d` (the local static `simplex[64][4]`). -/
def simplex4 : List (List Nat) :=
  [[0, 1, 2, 3], [0, 1, 3, 2], [0, 0, 1, 1], [0, 2, 3, 1], [0, 0, 1, 1], [0, 0, 1, 1],
   [0, 0, 1, 1], [1, 2, 3, 0], [0, 2, 1, 3], [0, 0, 1, 1], [0, 0, 1, 1], [0, 0, 1, 1],
   [1, 3, 0, 2], [0, 0, 1, 1], [0, 0, 1, 1], [0, 0, 1, 1], [0, 0, 1, 1], [0, 0, 1, 1],
   [0, 0, 1, 1], [0, 0, 1, 1], [0, 0, 1, 1], [0, 0, 1, 1], [0, 0, 1, 1], [0, 0, 1, 1],
   [1, 2, 0, 3], [0, 0, 1, 1], [0, 0, 1, 1], [0, 0, 1, 1], [1, 3, 2, 0], [0, 0, 1, 1],
   [0, 0, 1, 1], [0, 0, 1, 1], [0, 0, 1, 1], [0, 0, 1, 1], [0, 0, 1, 1], [0, 0, 1, 1],
   [0, 0, 1, 1], [0, 0, 1, 1], [0, 0, 1, 1], [0, 0, 1, 1], [2, 3, 0, 1], [0, 0, 1, 1],
   [0, 0, 1, 1], [0, 0, 1, 1], [2, 3, 1, 0], [0, 0, 1, 1], [0, 0, 1, 1], [0, 0, 1, 1],
   [0, 0, 1, 1], [0, 0, 1, 1], [0, 0, 1, 1], [0, 0, 1, 1], [0, 0, 1, 1], [0, 0, 1, 1],
   [0, 0, 1, 1], [0, 0, 1, 1], [2, 0, 3, 1], [0, 0, 1, 1], [0, 0, 1, 1], [0, 0, 1, 1],
   [3, 0, 1, 2], [3, 1, 0, 2], [0, 0, 1, 1], [0, 0, 1, 1]]

/-- C `simplex_noise_4d`, the body after the lazy-init guard. -/
noncomputable def simplex_noise_4d (pm : List Nat) (x y z w : ℝ) : ℝ :=
  let F4 : ℝ := (Real.sqrt 5.0 - 1.0) / 4.0
  let G4 : ℝ := (5.0 - Real.sqrt 5.0) / 20.0
  let s := (x + y + z + w) * F4
  let i := fast_floor (x + s)
  let j := fast_floor (y + s)
  let k := fast_floor (z + s)
  let l := fast_floor (w + s)
  let t := ((i + j + k + l : Int) : ℝ) * G4
  let x0 := x - ((i : ℝ) - t)
  let y0 := y - ((j : ℝ) - t)
  let z0 := z - ((k : ℝ) - t)
  let w0 := w - ((l : ℝ) - t)
  let c1 : Nat := if x0 > y0 then 32 else 0
  let c2 : Nat := if x0 > z0 then 16 else 0
  let c3 : Nat := if y0 > z0 then 8 else 0
  let c4 : Nat := if x0 > w0 then 4 else 0
  let c5 : Nat := if y0 > w0 then 2 else 0
  let c6 : Nat := if z0 > w0 then 1 else 0
  let c := c1 + c2 + c3 + c4 + c5 + c6
  let sc := simplex4.getD c []
  let i1 : Nat := if sc.getD 0 0 ≥ 3 then 1 else 0
  let j1 : Nat := if sc.getD 1 0 ≥ 3 then 1 else 0
  let k1 : Nat := if sc.getD 2 0 ≥ 3 then 1 else 0
  let l1 : Nat := if sc.getD 3 0 ≥ 3 then 1 else 0
  let i2 : Nat := if sc.getD 0 0 ≥ 2 then 1 else 0
  let j2 : Nat := if sc.getD 1 0 ≥ 2 then 1 else 0
  let k2 : Nat := if sc.getD 2 0 ≥ 2 then 1 else 0
  let l2 : Nat := if sc.getD 3 0 ≥ 2 then 1 else 0
  let i3 : Nat := if sc.getD 0 0 ≥ 1 then 1 else 0
  let j3 : Nat := if sc.getD 1 0 ≥ 1 then 1 else 0
  let k3 : Nat := if sc.getD 2 0 ≥ 1 then 1 else 0
  let l3 : Nat := if sc.getD 3 0 ≥ 1 then 1 else 0
  let x1 := x0 - (i1 : ℝ) + G4
  let y1 := y0 - (j1 : ℝ) + G4
  let z1 := z0 - (k1 : ℝ) + G4
  let w1 := w0 - (l1 : ℝ) + G4
  let x2 := x0 - (i2 : ℝ) + 2.0 * G4
  let y2 := y0 - (j2 : ℝ) + 2.0 * G4
  let z2 := z0 - (k2 : ℝ) + 2.0 * G4
  let w2 := w0 - (l2 : ℝ) + 2.0 * G4
  let x3 := x0 - (i3 : ℝ) + 3.0 * G4
  let y3 := y0 - (j3 : ℝ) + 3.0 * G4
  let z3 := z0 - (k3 : ℝ) + 3.0 * G4
  let w3 := w0 - (l3 : ℝ) + 3.0 * G4
  let x4 := x0 - 1.0 + 4.0 * G4
  let y4 := y0 - 1.0 + 4.0 * G4
  let z4 := z0 - 1.0 + 4.0 * G4
  let w4 := w0 - 1.0 + 4.0 * G4
  let ii := and255 i
  let jj := and255 j
  let kk := and255 k
  let ll := and255 l
  let gi0 := pm.getD (ii + pm.getD (jj + pm.getD (kk + pm.getD ll 0) 0) 0) 0 % 32
  let gi1 := pm.getD (ii + i1 + pm.getD (jj + j1 + pm.getD (kk + k1 + pm.getD (ll + l1) 0) 0) 0) 0 % 32
  let gi2 := pm.getD (ii + i2 + pm.getD (jj + j2 + pm.getD (kk + k2 + pm.getD (ll + l2) 0) 0) 0) 0 % 32
  let gi3 := pm.getD (ii + i3 + pm.getD (jj + j3 + pm.getD (kk + k3 + pm.getD (ll + l3) 0) 0) 0) 0 % 32
  let gi4 := pm.getD (ii + 1 + pm.getD (jj + 1 + pm.getD (kk + 1 + pm.getD (ll + 1) 0) 0) 0) 0 % 32
  let t0 := 0.6 - x0 * x0 - y0 * y0 - z0 * z0 - w0 * w0
  let n0 : ℝ :=
    if t0 ≥ 0 then
      let t0 := t0 * t0
      t0 * t0 * dot4d (grad4.getD gi0 (0, 0, 0, 0)) x0 y0 z0 w0
    else 0.0
  let t1 := 0.6 - x1 * x1 - y1 * y1 - z1 * z1 - w1 * w1
  let n1 : ℝ :=
    if t1 ≥ 0 then
      let t1 := t1 * t1
      t1 * t1 * dot4d (grad4.getD gi1 (0, 0, 0, 0)) x1 y1 z1 w1
    else 0.0
  let t2 := 0.6 - x2 * x2 - y2 * y2 - z2 * z2 - w2 * w2
  let n2 : ℝ :=
    if t2 ≥ 0 then
      let t2 := t2 * t2
      t2 * t2 * dot4d (grad4.getD gi2 (0, 0, 0, 0)) x2 y2 z2 w2
    else 0.0
  let t3 := 0.6 - x3 * x3 - y3 * y3 - z3 * z3 - w3 * w3
  let n3 : ℝ :=
    if t3 ≥ 0 then
      let t3 := t3 * t3
      t3 * t3 * dot4d (grad4.getD gi3 (0, 0, 0, 0)) x3 y3 z3 w3
    else 0.0
  let t4 := 0.6 - x4 * x4 - y4 * y4 - z4 * z4 - w4 * w4
  let n4 : ℝ :=
    if t4 ≥ 0 then
      let t4 := t4 * t4
      t4 * t4 * dot4d (grad4.getD gi4 (0, 0, 0, 0)) x4 y4 z4 w4
    else 0.0
  27.0 * (n0 + n1 + n2 + n3 + n4)

/-- C `simplex_ridged_1d`: 1 - |kernel|. -/
noncomputable def simplex_ridged_1d (pm : List Nat) (x : ℝ) : ℝ :=
  let noise := simplex_noise_1d pm x
  1.0 - |noise|

/-- C `simplex_ridged_2d`. -/
noncomputable def simplex_ridged_2d (pm : List Nat) (x y : ℝ) : ℝ :=
  let noise := simplex_noise_2d pm x y
  1.0 - |noise|

/-- C `simplex_ridged_3d`. -/
noncomputable def simplex_ridged_3d (pm : List Nat) (x y z : ℝ) : ℝ :=
  let noise := simplex_noise_3d pm x y z
  1.0 - |noise|

/-- C `simplex_billowy_1d`: |kernel|. -/
noncomputable def simplex_billowy_1d (pm : List Nat) (x : ℝ) : ℝ :=
  let noise := simplex_noise_1d pm x
  |noise|

/-- C `simplex_billowy_2d`. -/
noncomputable def simplex_billowy_2d (pm : List Nat) (x y : ℝ) : ℝ :=
  let noise := simplex_noise_2d pm x y
  |noise|

/-- C `simplex_billowy_3d`. -/
noncomputable def simplex_billowy_3d (pm : List Nat) (x y z : ℝ) : ℝ :=
  let noise := simplex_noise_3d pm x y z
  |noise|

/-- The accumulation loop of C `simplex_fbm_2d`: starting from
value = 0, amplitude = 1, frequency = 1, maxValue = 0, each iteration
adds kernel(x*frequency, y*frequency) * amplitude to value, adds
amplitude to maxValue, then multiplies amplitude by persistence and
frequency by lacunarity.  Returns (value, amplitude, frequency,
maxValue) after the given number of iterations. -/
noncomputable def fbm2d_loop (pm : List Nat) (x y persistence lacunarity : ℝ) :
    Nat → ℝ × ℝ × ℝ × ℝ
  | 0 => (0.0, 1.0, 1.0, 0.0)
  | n + 1 =>
    let acc := fbm2d_loop pm x y persistence lacunarity n
    let value := acc.1
    let amplitude := acc.2.1
    let frequency := acc.2.2.1
    let maxValue := acc.2.2.2
    (value + simplex_noise_2d pm (x * frequency) (y * frequency) * amplitude,
     amplitude * persistence, frequency * lacunarity, maxValue + amplitude)

/-- C `simplex_fbm_2d`: run the octave loop (an int octave count that is
not positive gives zero iterations) and divide the accumulated value by
the accumulated amplitude. -/
noncomputable def simplex_fbm_2d (pm : List Nat) (x y : ℝ) (octaves : Int)
    (persistence lacunarity : ℝ) : ℝ :=
  let acc := fbm2d_loop pm x y persistence lacunarity octaves.toNat
  acc.1 / acc.2.2.2

/-- The accumulation loop of C `simplex_fbm_3d`. -/
noncomputable def fbm3d_loop (pm : List Nat) (x y z persistence lacunarity : ℝ) :
    Nat → ℝ × ℝ × ℝ × ℝ
  | 0 => (0.0, 1.0, 1.0, 0.0)
  | n + 1 =>
    let acc := fbm3d_loop pm x y z persistence lacunarity n
    let value := acc.1
    let amplitude := acc.2.1
    let frequency := acc.2.2.1
    let maxValue := acc.2.2.2
    (value + simplex_noise_3d pm (x * frequency) (y * frequency) (z * frequency) * amplitude,
     amplitude * persistence, frequency * lacunarity, maxValue + amplitude)

/-- C `simplex_fbm_3d`. -/
noncomputable def simplex_fbm_3d (pm : List Nat) (x y z : ℝ) (octaves : Int)
    (persistence lacunarity : ℝ) : ℝ :=
  let acc := fbm3d_loop pm x y z persistence lacunarity octaves.toNat
  acc.1 / acc.2.2.2

/-- The accumulation loop of C `simplex_fractal_2d` - the source
duplicates the fBm loop verbatim, and so does this translation. -/
noncomputable def fractal2d_loop (pm : List Nat) (x y persistence lacunarity : ℝ) :
    Nat → ℝ × ℝ × ℝ × ℝ
  | 0 => (0.0, 1.0, 1.0, 0.0)
  | n + 1 =>
    let acc := fractal2d_loop pm x y persistence lacunarity n
    let value := acc.1
    let amplitude := acc.2.1
    let frequency := acc.2.2.1
    let maxValue := acc.2.2.2
    (value + simplex_noise_2d pm (x * frequency) (y * frequency) * amplitude,
     amplitude * persistence, frequency * lacunarity, maxValue + amplitude)

/-- C `simplex_fractal_2d`. -/
noncomputable def simplex_fractal_2d (pm : List Nat) (x y : ℝ) (octaves : Int)
    (persistence lacunarity : ℝ) : ℝ :=
  let acc := fractal2d_loop pm x y persistence lacunarity octaves.toNat
  acc.1 / acc.2.2.2

/-- The accumulation loop of C `simplex_fractal_3d` (verbatim duplicate
of the fBm 3D loop in the source). -/
noncomputable def fractal3d_loop (pm : List Nat) (x y z persistence lacunarity : ℝ) :
    Nat → ℝ × ℝ × ℝ × ℝ
  | 0 => (0.0, 1.0, 1.0, 0.0)
  | n + 1 =>
    let acc := fractal3d_loop pm x y z persistence lacunarity n
    let value := acc.1
    let amplitude := acc.2.1
    let frequency := acc.2.2.1
    let maxValue := acc.2.2.2
    (value + simplex_noise_3d pm (x * frequency) (y * frequency) (z * frequency) * amplitude,
     amplitude * persistence, frequency * lacunarity, maxValue + amplitude)

/-- C `simplex_fractal_3d`. -/
noncomputable def simplex_fractal_3d (pm : List Nat) (x y z : ℝ) (octaves : Int)
    (persistence lacunarity : ℝ) : ℝ :=
  let acc := fractal3d_loop pm x y z persistence lacunarity octaves.toNat
  acc.1 / acc.2.2.2

/-- The loop of C `simplex_hybrid_multifractal_2d`: value starts at 1 and
each iteration multiplies it by (offset + |kernel(x*freq, y*freq)|) *
amplitude, then updates amplitude and frequency.  Returns
(value, amplitude, frequency). -/
noncomputable def hybrid2d_loop (pm : List Nat) (x y persistence lacunarity offset : ℝ) :
    Nat → ℝ × ℝ × ℝ
  | 0 => (1.0, 1.0, 1.0)
  | n + 1 =>
    let acc := hybrid2d_loop pm x y persistence lacunarity offset n
    let value := acc.1
    let amplitude := acc.2.1
    let frequency := acc.2.2
    let noise := simplex_noise_2d pm (x * frequency) (y * frequency)
    (value * ((offset + |noise|) * amplitude),
     amplitude * persistence, frequency * lacunarity)

/-- C `simplex_hybrid_multifractal_2d`: the loop's final value, returned
with no normalization. -/
noncomputable def simplex_hybrid_multifractal_2d (pm : List Nat) (x y : ℝ)
    (octaves : Int) (persistence lacunarity offset : ℝ) : ℝ :=
  (hybrid2d_loop pm x y persistence lacunarity offset octaves.toNat).1

/-- The hybrid-multifractal formula as the specification states it: the
product over octaves i of (offset + |kernel(x*l^i, y*l^i)|) * p^i,
with no division by the cumulative amplitude. -/
noncomputable def simplex_hybrid_multifractal_2d_spec (pm : List Nat) (x y : ℝ)
    (octaves : Nat) (persistence lacunarity offset : ℝ) : ℝ :=
  ∏ i ∈ Finset.range octaves,
    (offset + |simplex_noise_2d pm (x * lacunarity ^ i) (y * lacunarity ^ i)|) *
      persistence ^ i

/-- C `simplex_domain_warp_2d`. -/
noncomputable def simplex_domain_warp_2d (pm : List Nat) (x y warp_strength : ℝ) : ℝ :=
  let warp_x := x + simplex_noise_2d pm x y * warp_strength
  let warp_y := y + simplex_noise_2d pm (x + 100) (y + 100) * warp_strength
  simplex_noise_2d pm warp_x warp_y

/-- Row y of the C `simplex_noise_array_2d` output: entries x = 0..width-1
of out[y*width + x] = kernel(x_start + x*step, y_start + y*step). -/
noncomputable def array2d_row (pm : List Nat) (x_start y_start : ℝ) (width : Nat)
    (step : ℝ) (yi : Nat) : List ℝ :=
  (List.range width).map fun (xi : ℕ) =>
    simplex_noise_2d pm (x_start + (xi : ℝ) * step) (y_start + (yi : ℝ) * step)

/-- C `simplex_noise_array_2d`.  The null output pointer is the Bool
`outNull`; a null pointer or non-positive width/height returns status -1
and writes nothing, otherwise status 0 with the row-major buffer. -/
noncomputable def simplex_noise_array_2d (pm : List Nat) (x_start y_start : ℝ)
    (width height : Int) (step : ℝ) (outNull : Bool) : Int × List ℝ :=
  if outNull = true ∨ width ≤ 0 ∨ height ≤ 0 then (-1, [])
  else
    (0, ((List.range height.toNat).map
          (array2d_row pm x_start y_start width.toNat step)).flatten)

/-- One z-slice of the C `simplex_noise_array_3d` output. -/
noncomputable def array3d_slice (pm : List Nat) (x_start y_start z_start : ℝ)
    (width height : Nat) (step : ℝ) (zi : Nat) : List ℝ :=
  ((List.range height).map fun (yi : ℕ) =>
    (List.range width).map fun (xi : ℕ) =>
      simplex_noise_3d pm (x_start + (xi : ℝ) * step) (y_start + (yi : ℝ) * step)
        (z_start + (zi : ℝ) * step)).flatten

/-- C `simplex_noise_array_3d`: status -1 on a null output pointer or a
non-positive width, height, or depth; otherwise status 0 with the
row-major buffer out[(z*height + y)*width + x]. -/
noncomputable def simplex_noise_array_3d (pm : List Nat) (x_start y_start z_start : ℝ)
    (width height depth : Int) (step : ℝ) (outNull : Bool) : Int × List ℝ :=
  if outNull = true ∨ width ≤ 0 ∨ height ≤ 0 ∨ depth ≤ 0 then (-1, [])
  else
    (0, ((List.range depth.toNat).map
          (array3d_slice pm x_start y_start z_start width.toNat height.toNat step)).flatten)

/-- A concrete pre-initialization engine state, as the C process starts:
all static storage zeroed (512 zero permutation entries, zeroed PRNG
words, default configuration, empty cache, cleared flags and counters). -/
noncomputable def emptyEngineState : EngineState :=
  { perm := List.replicate 512 0,
    inited := 0,
    global_config := simplex_get_default_config,
    prng := { lcg_state := 0, mersenne_state := List.replicate 624 0,
              mersenne_index := 0, xorshift_state := List.replicate 4 0,
              pcg_state := 0, pcg_inc := 0 },
    perf_stats := zeroStats,
    noise_cache := [],
    cache_enabled := 0,
    cache_hits := 0,
    cache_misses := 0,
    profiling_enabled := 0,
    function_call_count := 0 }

/-! ### Theorems -/

/-- Replacing the entry at an in-bounds position and consing the old entry
in front permutes consing the new entry onto the original list. -/
theorem getD_cons_set_perm (x : Nat) :
    ∀ (xs : List Nat) (m : Nat), m < xs.length →
      List.Perm (xs.getD m 0 :: xs.set m x) (x :: xs)
  | [], m, hm => absurd hm (by simp)
  | a :: t, 0, _ => List.Perm.swap x a t
  | a :: t, m + 1, hm => by
    have ih := getD_cons_set_perm x t m (Nat.lt_of_succ_lt_succ hm)
    exact ((List.Perm.swap a (t.getD m 0) (t.set m x)).trans (ih.cons a)).trans
      (List.Perm.swap x a t)

/-- The C swap of two in-bounds entries permutes the list. -/
theorem swapL_perm :
    ∀ (l : List Nat) (i j : Nat), i < l.length → j < l.length →
      List.Perm (swapL l i j) l
  | [], i, _, hi, _ => absurd hi (by simp)
  | a :: t, 0, 0, _, _ => by simp [swapL]
  | a :: t, 0, m + 1, _, hj =>
    getD_cons_set_perm a t m (Nat.lt_of_succ_lt_succ hj)
  | a :: t, n + 1, 0, hi, _ =>
    getD_cons_set_perm a t n (Nat.lt_of_succ_lt_succ hi)
  | a :: t, n + 1, m + 1, hi, hj =>
    (swapL_perm t n m (Nat.lt_of_succ_lt_succ hi) (Nat.lt_of_succ_lt_succ hj)).cons a

/-- The Fisher-Yates loop permutes its input list whenever the loop
counter stays in bounds. -/
theorem fisher_yates_perm (ptype : Nat) :
    ∀ (n : Nat) (st : PrngState) (l : List Nat), n < l.length →
      List.Perm (fisher_yates ptype st l n).1 l
  | 0, _, _, _ => List.Perm.refl _
  | n + 1, st, l, h => by
    have hj : (prng_next ptype st).1 % (n + 2) < l.length :=
      Nat.lt_of_lt_of_le (Nat.mod_lt _ (Nat.succ_pos _)) h
    have hswap := swapL_perm l (n + 1) ((prng_next ptype st).1 % (n + 2)) h hj
    have hlen : (swapL l (n + 1) ((prng_next ptype st).1 % (n + 2))).length = l.length := by
      simp [swapL]
    have hrec := fisher_yates_perm ptype n (prng_next ptype st).2
      (swapL l (n + 1) ((prng_next ptype st).1 % (n + 2)))
      (by rw [hlen]; exact Nat.lt_of_succ_lt h)
    show List.Perm
      (fisher_yates ptype (prng_next ptype st).2
        (swapL l (n + 1) ((prng_next ptype st).1 % (n + 2))) n).1 l
    exact hrec.trans hswap

/-- Facts about a 256-entry permutation duplicated into a 512-entry
table: the first 256 entries are the permutation, the length is 512, and
entry 256+i duplicates entry i. -/
theorem dup_table_spec (A : List Nat) (hlen : A.length = 256)
    (hperm : List.Perm A (List.range 256)) :
    List.Perm ((A ++ A).take 256) (List.range 256) ∧
    (A ++ A).length = 512 ∧
    ∀ i, i < 256 → (A ++ A).getD (256 + i) 0 = (A ++ A).getD i 0 := by
  refine ⟨?_, ?_, ?_⟩
  · have h : (A ++ A).take 256 = A := by
      rw [← hlen]
      exact List.take_left A A
    rw [h]
    exact hperm
  · simp [hlen]
  · intro i hi
    rw [List.getD_append_right _ _ _ _ (by omega), hlen,
      List.getD_append _ _ _ _ (by omega), Nat.add_sub_cancel_left]

set_option maxRecDepth 8000 in
/-- C2: after any init (any configuration, any seed resolution, any PRNG
algorithm), the permutation table's first 256 entries are a permutation
of 0..255 (each value appears exactly once), the table has 512 entries,
and entry 256+i duplicates entry i for every i below 256. -/
theorem perm_table_valid (cfg : Config) (timeNow : Nat) (s : EngineState) :
    List.Perm ((simplex_noise_init_advanced (some cfg) timeNow s).2.perm.take 256)
      (List.range 256) ∧
    (simplex_noise_init_advanced (some cfg) timeNow s).2.perm.length = 512 ∧
    ∀ i, i < 256 →
      (simplex_noise_init_advanced (some cfg) timeNow s).2.perm.getD (256 + i) 0 =
        (simplex_noise_init_advanced (some cfg) timeNow s).2.perm.getD i 0 := by
  have hperm := fisher_yates_perm
    (if cfg.seed = 0 then { cfg with seed := timeNow % U32 } else cfg).prng_type 255
    (prng_init
      (if cfg.seed = 0 then { cfg with seed := timeNow % U32 } else cfg).prng_type
      (if cfg.seed = 0 then { cfg with seed := timeNow % U32 } else cfg).seed
      s.prng)
    (List.range 256) (by simp)
  have hlen := hperm.length_eq
  simp only [List.length_range] at hlen
  exact dup_table_spec _ hlen hperm

/-- Witness for perm_table_valid at the default configuration, time 0,
and the zeroed start-up state, checking the duplication at index 0. -/
theorem perm_table_valid_witness :
    List.Perm ((simplex_noise_init_advanced (some simplex_get_default_config) 0
        emptyEngineState).2.perm.take 256) (List.range 256) ∧
    (simplex_noise_init_advanced (some simplex_get_default_config) 0
        emptyEngineState).2.perm.getD (256 + 0) 0 =
      (simplex_noise_init_advanced (some simplex_get_default_config) 0
        emptyEngineState).2.perm.getD 0 0 :=
  ⟨(perm_table_valid simplex_get_default_config 0 emptyEngineState).1,
   (perm_table_valid simplex_get_default_config 0 emptyEngineState).2.2 0 (by decide)⟩

/-- The fractal 2D loop is the fBm 2D loop, octave by octave. -/
theorem fractal2d_loop_eq (pm : List Nat) (x y p l : ℝ) :
    ∀ n, fractal2d_loop pm x y p l n = fbm2d_loop pm x y p l n := by
  intro n
  induction n with
  | zero => rfl
  | succ n ih => simp [fractal2d_loop, fbm2d_loop, ih]

/-- The fractal 3D loop is the fBm 3D loop, octave by octave. -/
theorem fractal3d_loop_eq (pm : List Nat) (x y z p l : ℝ) :
    ∀ n, fractal3d_loop pm x y z p l n = fbm3d_loop pm x y z p l n := by
  intro n
  induction n with
  | zero => rfl
  | succ n ih => simp [fractal3d_loop, fbm3d_loop, ih]

/-- C4: for all coordinates, octave counts, persistence and lacunarity,
simplex_fractal_2d returns exactly the value of simplex_fbm_2d, and
simplex_fractal_3d exactly the value of simplex_fbm_3d - the two entry
points are the identical computation. -/
theorem fractal_eq_fbm (pm : List Nat) (x y z : ℝ) (octaves : Int)
    (persistence lacunarity : ℝ) :
    simplex_fractal_2d pm x y octaves persistence lacunarity =
      simplex_fbm_2d pm x y octaves persistence lacunarity ∧
    simplex_fractal_3d pm x y z octaves persistence lacunarity =
      simplex_fbm_3d pm x y z octaves persistence lacunarity := by
  constructor
  · simp [simplex_fractal_2d, simplex_fbm_2d, fractal2d_loop_eq]
  · simp [simplex_fractal_3d, simplex_fbm_3d, fractal3d_loop_eq]

/-- C3: in each dimension 1, 2, 3 and for any permutation table,
simplex_billowy equals the absolute value of the kernel exactly, and
simplex_ridged equals one minus that absolute value exactly. -/
theorem billowy_ridged_exact (pm : List Nat) (x y z : ℝ) :
    simplex_billowy_1d pm x = |simplex_noise_1d pm x| ∧
    simplex_ridged_1d pm x = 1 - |simplex_noise_1d pm x| ∧
    simplex_billowy_2d pm x y = |simplex_noise_2d pm x y| ∧
    simplex_ridged_2d pm x y = 1 - |simplex_noise_2d pm x y| ∧
    simplex_billowy_3d pm x y z = |simplex_noise_3d pm x y z| ∧
    simplex_ridged_3d pm x y z = 1 - |simplex_noise_3d pm x y z| := by
  refine ⟨?_, ?_, ?_, ?_, ?_, ?_⟩ <;>
    norm_num [simplex_billowy_1d, simplex_billowy_2d, simplex_billowy_3d,
      simplex_ridged_1d, simplex_ridged_2d, simplex_ridged_3d]

/-- C5: with warp strength zero, the warped coordinates collapse to the
inputs and simplex_domain_warp_2d equals simplex_noise_2d exactly. -/
theorem domain_warp_zero_strength (pm : List Nat) (x y : ℝ) :
    simplex_domain_warp_2d pm x y 0 = simplex_noise_2d pm x y := by
  simp [simplex_domain_warp_2d]

/-- The hybrid-multifractal loop in closed form: after n octaves the value
is the spec's product, the amplitude is persistence^n and the frequency
is lacunarity^n. -/
theorem hybrid2d_loop_eq (pm : List Nat) (x y p l off : ℝ) :
    ∀ n, hybrid2d_loop pm x y p l off n =
      (simplex_hybrid_multifractal_2d_spec pm x y n p l off, p ^ n, l ^ n) := by
  intro n
  induction n with
  | zero => norm_num [hybrid2d_loop, simplex_hybrid_multifractal_2d_spec]
  | succ n ih =>
    simp only [hybrid2d_loop, ih, simplex_hybrid_multifractal_2d_spec,
      Finset.prod_range_succ, pow_succ]

/-- C7: simplex_hybrid_multifractal_2d computes exactly the spec's
recurrence - value starts at 1, each octave multiplies it by
(offset + |kernel at the frequency-scaled point|) * amplitude with
amplitude *= persistence and frequency *= lacunarity - and the result is
returned with no division by the cumulative amplitude. -/
theorem hybrid_multifractal_formula (pm : List Nat) (x y : ℝ) (octaves : Int)
    (persistence lacunarity offset : ℝ) :
    simplex_hybrid_multifractal_2d pm x y octaves persistence lacunarity offset =
      simplex_hybrid_multifractal_2d_spec pm x y octaves.toNat persistence
        lacunarity offset := by
  simp [simplex_hybrid_multifractal_2d, hybrid2d_loop_eq]

/-- C10: with a non-positive octave count, the four fBm/fractal loops run
zero iterations, leaving both the accumulated value and the cumulative
amplitude at 0, and each function returns the unguarded division 0 / 0
(over IEEE doubles, 0.0/0.0 is NaN; the real-valued model renders the
same unguarded division). -/
theorem fbm_nonpositive_octaves (pm : List Nat) (x y z : ℝ)
    (persistence lacunarity : ℝ) (octaves : Int) (h : octaves ≤ 0) :
    fbm2d_loop pm x y persistence lacunarity octaves.toNat = (0, 1, 1, 0) ∧
    simplex_fbm_2d pm x y octaves persistence lacunarity = 0 / 0 ∧
    fbm3d_loop pm x y z persistence lacunarity octaves.toNat = (0, 1, 1, 0) ∧
    simplex_fbm_3d pm x y z octaves persistence lacunarity = 0 / 0 ∧
    fractal2d_loop pm x y persistence lacunarity octaves.toNat = (0, 1, 1, 0) ∧
    simplex_fractal_2d pm x y octaves persistence lacunarity = 0 / 0 ∧
    fractal3d_loop pm x y z persistence lacunarity octaves.toNat = (0, 1, 1, 0) ∧
    simplex_fractal_3d pm x y z octaves persistence lacunarity = 0 / 0 := by
  have h0 : octaves.toNat = 0 := Int.toNat_of_nonpos h
  refine ⟨?_, ?_, ?_, ?_, ?_, ?_, ?_, ?_⟩ <;>
    norm_num [h0, fbm2d_loop, fbm3d_loop, fractal2d_loop, fractal3d_loop,
      simplex_fbm_2d, simplex_fbm_3d, simplex_fractal_2d, simplex_fractal_3d]

/-- Witness for fbm_nonpositive_octaves at octaves = 0 and all-zero
remaining arguments. -/
theorem fbm_nonpositive_octaves_witness :
    (0 : Int) ≤ 0 ∧
    (fbm2d_loop [] 0 0 0 0 (0 : Int).toNat = (0, 1, 1, 0) ∧
     simplex_fbm_2d [] 0 0 0 0 0 = 0 / 0 ∧
     fbm3d_loop [] 0 0 0 0 0 (0 : Int).toNat = (0, 1, 1, 0) ∧
     simplex_fbm_3d [] 0 0 0 0 0 0 = 0 / 0 ∧
     fractal2d_loop [] 0 0 0 0 (0 : Int).toNat = (0, 1, 1, 0) ∧
     simplex_fractal_2d [] 0 0 0 0 0 = 0 / 0 ∧
     fractal3d_loop [] 0 0 0 0 0 (0 : Int).toNat = (0, 1, 1, 0) ∧
     simplex_fractal_3d [] 0 0 0 0 0 0 = 0 / 0) :=
  ⟨by decide, fbm_nonpositive_octaves [] 0 0 0 0 0 0 (by decide)⟩

/-- Seeding a PRNG writes its algorithm's fields with values depending
only on the seed, so two seeded states agree on those fields. -/
theorem prng_init_sameAlg : ∀ (ptype seed : Nat) (s1 s2 : PrngState),
    sameAlgState ptype (prng_init ptype seed s1) (prng_init ptype seed s2)
  | 0, _, _, _ => rfl
  | 1, _, _, _ => ⟨rfl, rfl⟩
  | 2, _, _, _ => rfl
  | 3, _, _, _ => ⟨rfl, rfl⟩
  | _ + 4, _, _, _ => rfl

/-- Each generator reads and writes only its own fields: states agreeing
on the selected algorithm's fields produce the same output and stay in
agreement. -/
theorem prng_next_congr : ∀ (ptype : Nat) (s1 s2 : PrngState),
    sameAlgState ptype s1 s2 →
    (prng_next ptype s1).1 = (prng_next ptype s2).1 ∧
    sameAlgState ptype (prng_next ptype s1).2 (prng_next ptype s2).2
  | 0, s1, s2, h => by
    simp only [sameAlgState] at h ⊢
    constructor
    · show (lcg_next s1).1 = (lcg_next s2).1
      simp only [lcg_next]
      rw [h]
    · show (lcg_next s1).2.lcg_state = (lcg_next s2).2.lcg_state
      simp only [lcg_next]
      rw [h]
  | 1, s1, s2, h => by
    obtain ⟨h1, h2⟩ := h
    have hg1 : (mersenne_generate s1).mersenne_state =
        (mersenne_generate s2).mersenne_state := by
      simp only [mersenne_generate]
      rw [h1]
    have hg2 : (mersenne_generate s1).mersenne_index =
        (mersenne_generate s2).mersenne_index := by
      simp only [mersenne_generate]
      rw [h2]
    have hS1 : (if s1.mersenne_index = 0 then mersenne_generate s1 else s1).mersenne_state =
        (if s2.mersenne_index = 0 then mersenne_generate s2 else s2).mersenne_state := by
      rw [h2]
      by_cases hc : s2.mersenne_index = 0
      · rw [if_pos hc, if_pos hc]
        exact hg1
      · rw [if_neg hc, if_neg hc]
        exact h1
    have hS2 : (if s1.mersenne_index = 0 then mersenne_generate s1 else s1).mersenne_index =
        (if s2.mersenne_index = 0 then mersenne_generate s2 else s2).mersenne_index := by
      rw [h2]
      by_cases hc : s2.mersenne_index = 0
      · rw [if_pos hc, if_pos hc]
        exact hg2
      · rw [if_neg hc, if_neg hc]
        exact h2
    constructor
    · show (mersenne_next s1).1 = (mersenne_next s2).1
      simp only [mersenne_next]
      rw [hS1, hS2]
    · refine ⟨?_, ?_⟩
      · show (mersenne_next s1).2.mersenne_state = (mersenne_next s2).2.mersenne_state
        simp only [mersenne_next]
        rw [hS1]
      · show (mersenne_next s1).2.mersenne_index = (mersenne_next s2).2.mersenne_index
        simp only [mersenne_next]
        rw [hS2]
  | 2, s1, s2, h => by
    simp only [sameAlgState] at h ⊢
    constructor
    · show (xorshift_next s1).1 % U32 = (xorshift_next s2).1 % U32
      simp only [xorshift_next]
      rw [h]
    · show (xorshift_next s1).2.xorshift_state = (xorshift_next s2).2.xorshift_state
      simp only [xorshift_next]
      rw [h]
  | 3, s1, s2, h => by
    obtain ⟨h1, h2⟩ := h
    constructor
    · show (pcg_next s1).1 = (pcg_next s2).1
      simp only [pcg_next]
      rw [h1]
    · refine ⟨?_, ?_⟩
      · show (pcg_next s1).2.pcg_state = (pcg_next s2).2.pcg_state
        simp only [pcg_next]
        rw [h1, h2]
      · show (pcg_next s1).2.pcg_inc = (pcg_next s2).2.pcg_inc
        simp only [pcg_next]
        rw [h2]
  | n + 4, s1, s2, h => by
    simp only [sameAlgState] at h ⊢
    constructor
    · show (lcg_next s1).1 = (lcg_next s2).1
      simp only [lcg_next]
      rw [h]
    · show (lcg_next s1).2.lcg_state = (lcg_next s2).2.lcg_state
      simp only [lcg_next]
      rw [h]

/-- The shuffle result depends on the PRNG state only through the fields
of the selected algorithm. -/
theorem fisher_yates_congr (ptype : Nat) :
    ∀ (n : Nat) (s1 s2 : PrngState) (l : List Nat), sameAlgState ptype s1 s2 →
      (fisher_yates ptype s1 l n).1 = (fisher_yates ptype s2 l n).1
  | 0, _, _, _, _ => rfl
  | n + 1, s1, s2, l, h => by
    have hc := prng_next_congr ptype s1 s2 h
    show (fisher_yates ptype (prng_next ptype s1).2
        (swapL l (n + 1) ((prng_next ptype s1).1 % (n + 2))) n).1 =
      (fisher_yates ptype (prng_next ptype s2).2
        (swapL l (n + 1) ((prng_next ptype s2).1 % (n + 2))) n).1
    rw [hc.1]
    exact fisher_yates_congr ptype n _ _ _ hc.2

set_option maxRecDepth 8000 in
/-- With a nonzero configured seed, the permutation table produced by
init is a function of the configuration alone: it does not depend on the
time oracle or on any prior engine state. -/
theorem init_perm_independent (cfg : Config) (t1 t2 : Nat) (sa sb : EngineState)
    (h : cfg.seed ≠ 0) :
    (simplex_noise_init_advanced (some cfg) t1 sa).2.perm =
      (simplex_noise_init_advanced (some cfg) t2 sb).2.perm := by
  simp only [simplex_noise_init_advanced, if_neg h]
  rw [fisher_yates_congr cfg.prng_type 255
    (prng_init cfg.prng_type cfg.seed sa.prng)
    (prng_init cfg.prng_type cfg.seed sb.prng)
    (List.range 256) (prng_init_sameAlg _ _ _ _)]

set_option maxRecDepth 8000 in
/-- C1: with a nonzero 32-bit seed (any PRNG algorithm selector in the
configuration), initialization depends neither on the time oracle nor -
for the permutation table, hence for every sampling result - on the
prior engine state: two init-plus-sampling runs with the same (seed,
algorithm) configuration produce identical engine states (from the same
prior state) and bit-identical kernel and composer outputs at every
coordinate (from any two prior states).  The same holds for the legacy
simplex_noise_init entry point. -/
theorem init_deterministic (cfg : Config) (seed t1 t2 : Nat) (s0 s0' : EngineState)
    (hcfg : cfg.seed ≠ 0) (hseed : seed ≠ 0) :
    simplex_noise_init_advanced (some cfg) t1 s0 =
      simplex_noise_init_advanced (some cfg) t2 s0 ∧
    (simplex_noise_init_advanced (some cfg) t1 s0).2.perm =
      (simplex_noise_init_advanced (some cfg) t2 s0').2.perm ∧
    simplex_noise_init seed t1 s0 = simplex_noise_init seed t2 s0 ∧
    (simplex_noise_init seed t1 s0).perm = (simplex_noise_init seed t2 s0').perm ∧
    ∀ (x y z w : ℝ) (octaves : Int) (p l off ws : ℝ),
      simplex_noise_1d (simplex_noise_init_advanced (some cfg) t1 s0).2.perm x =
        simplex_noise_1d (simplex_noise_init_advanced (some cfg) t2 s0').2.perm x ∧
      simplex_noise_2d (simplex_noise_init_advanced (some cfg) t1 s0).2.perm x y =
        simplex_noise_2d (simplex_noise_init_advanced (some cfg) t2 s0').2.perm x y ∧
      simplex_noise_3d (simplex_noise_init_advanced (some cfg) t1 s0).2.perm x y z =
        simplex_noise_3d (simplex_noise_init_advanced (some cfg) t2 s0').2.perm x y z ∧
      simplex_noise_4d (simplex_noise_init_advanced (some cfg) t1 s0).2.perm x y z w =
        simplex_noise_4d (simplex_noise_init_advanced (some cfg) t2 s0').2.perm x y z w ∧
      simplex_ridged_1d (simplex_noise_init_advanced (some cfg) t1 s0).2.perm x =
        simplex_ridged_1d (simplex_noise_init_advanced (some cfg) t2 s0').2.perm x ∧
      simplex_ridged_2d (simplex_noise_init_advanced (some cfg) t1 s0).2.perm x y =
        simplex_ridged_2d (simplex_noise_init_advanced (some cfg) t2 s0').2.perm x y ∧
      simplex_ridged_3d (simplex_noise_init_advanced (some cfg) t1 s0).2.perm x y z =
        simplex_ridged_3d (simplex_noise_init_advanced (some cfg) t2 s0').2.perm x y z ∧
      simplex_billowy_1d (simplex_noise_init_advanced (some cfg) t1 s0).2.perm x =
        simplex_billowy_1d (simplex_noise_init_advanced (some cfg) t2 s0').2.perm x ∧
      simplex_billowy_2d (simplex_noise_init_advanced (some cfg) t1 s0).2.perm x y =
        simplex_billowy_2d (simplex_noise_init_advanced (some cfg) t2 s0').2.perm x y ∧
      simplex_billowy_3d (simplex_noise_init_advanced (some cfg) t1 s0).2.perm x y z =
        simplex_billowy_3d (simplex_noise_init_advanced (some cfg) t2 s0').2.perm x y z ∧
      simplex_fbm_2d (simplex_noise_init_advanced (some cfg) t1 s0).2.perm x y octaves p l =
        simplex_fbm_2d (simplex_noise_init_advanced (some cfg) t2 s0').2.perm x y octaves p l ∧
      simplex_fbm_3d (simplex_noise_init_advanced (some cfg) t1 s0).2.perm x y z octaves p l =
        simplex_fbm_3d (simplex_noise_init_advanced (some cfg) t2 s0').2.perm x y z octaves p l ∧
      simplex_fractal_2d (simplex_noise_init_advanced (some cfg) t1 s0).2.perm x y octaves p l =
        simplex_fractal_2d (simplex_noise_init_advanced (some cfg) t2 s0').2.perm x y octaves p l ∧
      simplex_fractal_3d (simplex_noise_init_advanced (some cfg) t1 s0).2.perm x y z octaves p l =
        simplex_fractal_3d (simplex_noise_init_advanced (some cfg) t2 s0').2.perm x y z octaves p l ∧
      simplex_hybrid_multifractal_2d (simplex_noise_init_advanced (some cfg) t1 s0).2.perm
          x y octaves p l off =
        simplex_hybrid_multifractal_2d (simplex_noise_init_advanced (some cfg) t2 s0').2.perm
          x y octaves p l off ∧
      simplex_domain_warp_2d (simplex_noise_init_advanced (some cfg) t1 s0).2.perm x y ws =
        simplex_domain_warp_2d (simplex_noise_init_advanced (some cfg) t2 s0').2.perm x y ws := by
  have h1 : simplex_noise_init_advanced (some cfg) t1 s0 =
      simplex_noise_init_advanced (some cfg) t2 s0 := by
    simp only [simplex_noise_init_advanced, if_neg hcfg]
  have hB := init_perm_independent cfg t1 t2 s0 s0' hcfg
  have hs' : ({ simplex_get_default_config with seed := seed } : Config).seed ≠ 0 := hseed
  have h2 : simplex_noise_init seed t1 s0 = simplex_noise_init seed t2 s0 := by
    simp only [simplex_noise_init, simplex_noise_init_advanced, if_neg hs']
  have hD : (simplex_noise_init seed t1 s0).perm =
      (simplex_noise_init seed t2 s0').perm :=
    init_perm_independent { simplex_get_default_config with seed := seed } t1 t2 s0 s0' hs'
  refine ⟨h1, hB, h2, hD, ?_⟩
  intro x y z w octaves p l off ws
  rw [hB]
  exact ⟨rfl, rfl, rfl, rfl, rfl, rfl, rfl, rfl, rfl, rfl, rfl, rfl, rfl, rfl,
    rfl, rfl⟩

set_option maxRecDepth 8000 in
/-- Witness for init_deterministic: seed 12345 with the default
configuration, times 0 and 99, from the zeroed start-up state. -/
theorem init_deterministic_witness :
    simplex_noise_init_advanced
        (some { simplex_get_default_config with seed := 12345 }) 0 emptyEngineState =
      simplex_noise_init_advanced
        (some { simplex_get_default_config with seed := 12345 }) 99 emptyEngineState :=
  (init_deterministic { simplex_get_default_config with seed := 12345 } 12345 0 99
    emptyEngineState emptyEngineState (by decide) (by decide)).1

/-- C8: simplex_noise_init_advanced fails (status -1) exactly on a null
configuration pointer and succeeds (status 0) on every non-null one;
simplex_noise_array_2d returns a negative status exactly when the output
pointer is null or the width or height is non-positive, and
simplex_noise_array_3d exactly when additionally the depth is
non-positive; in all other cases the fillers return 0. -/
theorem status_codes :
    (∀ (t : Nat) (s : EngineState),
      (simplex_noise_init_advanced none t s).1 = -1) ∧
    (∀ (cfg : Config) (t : Nat) (s : EngineState),
      (simplex_noise_init_advanced (some cfg) t s).1 = 0) ∧
    (∀ (pm : List Nat) (x0 y0 : ℝ) (W H : Int) (st : ℝ) (onull : Bool),
      ((simplex_noise_array_2d pm x0 y0 W H st onull).1 < 0 ↔
        (onull = true ∨ W ≤ 0 ∨ H ≤ 0)) ∧
      ((simplex_noise_array_2d pm x0 y0 W H st onull).1 = 0 ↔
        ¬(onull = true ∨ W ≤ 0 ∨ H ≤ 0))) ∧
    (∀ (pm : List Nat) (x0 y0 z0 : ℝ) (W H D : Int) (st : ℝ) (onull : Bool),
      ((simplex_noise_array_3d pm x0 y0 z0 W H D st onull).1 < 0 ↔
        (onull = true ∨ W ≤ 0 ∨ H ≤ 0 ∨ D ≤ 0)) ∧
      ((simplex_noise_array_3d pm x0 y0 z0 W H D st onull).1 = 0 ↔
        ¬(onull = true ∨ W ≤ 0 ∨ H ≤ 0 ∨ D ≤ 0))) := by
  refine ⟨fun _ _ => rfl, fun _ _ _ => rfl, ?_, ?_⟩
  · intro pm x0 y0 W H st onull
    unfold simplex_noise_array_2d
    split_ifs with h <;> simp [h]
  · intro pm x0 y0 z0 W H D st onull
    unfold simplex_noise_array_3d
    split_ifs with h <;> simp [h]

set_option maxRecDepth 8000 in
/-- C9: the caching flag has no effect on any kernel or composer output.
Two engines initialized from configurations identical except for
enable_caching have identical permutation tables and hence bit-identical
outputs everywhere, and simplex_set_caching leaves the permutation table
(and therefore every sampling result) unchanged. -/
theorem caching_no_effect (cfg : Config) (t : Nat) (s0 : EngineState) (b e : Int)
    (s : EngineState) :
    (simplex_noise_init_advanced (some { cfg with enable_caching := b }) t s0).2.perm =
      (simplex_noise_init_advanced (some cfg) t s0).2.perm ∧
    (simplex_set_caching e s).2.perm = s.perm ∧
    ∀ (x y z w : ℝ) (octaves : Int) (p l off ws : ℝ),
      simplex_noise_1d
          (simplex_noise_init_advanced (some { cfg with enable_caching := b }) t s0).2.perm x =
        simplex_noise_1d (simplex_noise_init_advanced (some cfg) t s0).2.perm x ∧
      simplex_noise_2d
          (simplex_noise_init_advanced (some { cfg with enable_caching := b }) t s0).2.perm x y =
        simplex_noise_2d (simplex_noise_init_advanced (some cfg) t s0).2.perm x y ∧
      simplex_noise_3d
          (simplex_noise_init_advanced (some { cfg with enable_caching := b }) t s0).2.perm x y z =
        simplex_noise_3d (simplex_noise_init_advanced (some cfg) t s0).2.perm x y z ∧
      simplex_noise_4d
          (simplex_noise_init_advanced (some { cfg with enable_caching := b }) t s0).2.perm x y z w =
        simplex_noise_4d (simplex_noise_init_advanced (some cfg) t s0).2.perm x y z w ∧
      simplex_ridged_2d
          (simplex_noise_init_advanced (some { cfg with enable_caching := b }) t s0).2.perm x y =
        simplex_ridged_2d (simplex_noise_init_advanced (some cfg) t s0).2.perm x y ∧
      simplex_billowy_2d
          (simplex_noise_init_advanced (some { cfg with enable_caching := b }) t s0).2.perm x y =
        simplex_billowy_2d (simplex_noise_init_advanced (some cfg) t s0).2.perm x y ∧
      simplex_fbm_2d
          (simplex_noise_init_advanced (some { cfg with enable_caching := b }) t s0).2.perm
          x y octaves p l =
        simplex_fbm_2d (simplex_noise_init_advanced (some cfg) t s0).2.perm x y octaves p l ∧
      simplex_fbm_3d
          (simplex_noise_init_advanced (some { cfg with enable_caching := b }) t s0).2.perm
          x y z octaves p l =
        simplex_fbm_3d (simplex_noise_init_advanced (some cfg) t s0).2.perm x y z octaves p l ∧
      simplex_fractal_2d
          (simplex_noise_init_advanced (some { cfg with enable_caching := b }) t s0).2.perm
          x y octaves p l =
        simplex_fractal_2d (simplex_noise_init_advanced (some cfg) t s0).2.perm x y octaves p l ∧
      simplex_hybrid_multifractal_2d
          (simplex_noise_init_advanced (some { cfg with enable_caching := b }) t s0).2.perm
          x y octaves p l off =
        simplex_hybrid_multifractal_2d (simplex_noise_init_advanced (some cfg) t s0).2.perm
          x y octaves p l off ∧
      simplex_domain_warp_2d
          (simplex_noise_init_advanced (some { cfg with enable_caching := b }) t s0).2.perm
          x y ws =
        simplex_domain_warp_2d (simplex_noise_init_advanced (some cfg) t s0).2.perm x y ws ∧
      simplex_noise_2d (simplex_set_caching e s).2.perm x y =
        simplex_noise_2d s.perm x y := by
  have hp : (simplex_noise_init_advanced
      (some { cfg with enable_caching := b }) t s0).2.perm =
      (simplex_noise_init_advanced (some cfg) t s0).2.perm := by
    by_cases h : cfg.seed = 0 <;>
      simp only [simplex_noise_init_advanced, h, if_true, if_false, ite_true, ite_false]
  refine ⟨hp, rfl, ?_⟩
  intro x y z w octaves p l off ws
  rw [hp]
  exact ⟨rfl, rfl, rfl, rfl, rfl, rfl, rfl, rfl, rfl, rfl, rfl, rfl⟩

/-- Length of a concatenation of H rows of width W. -/
theorem length_flatten_rows (f : Nat → List ℝ) (W : Nat)
    (hW : ∀ k, (f k).length = W) :
    ∀ H, (((List.range H).map f).flatten).length = H * W := by
  intro H
  induction H with
  | zero => simp
  | succ H ih =>
    rw [List.range_succ, List.map_append, List.flatten_append]
    simp [ih, hW, Nat.succ_mul]

/-- Row-major indexing into a concatenation of H rows of width W:
entry j*W + i is entry i of row j. -/
theorem getD_flatten_rows (f : Nat → List ℝ) (W : Nat)
    (hW : ∀ k, (f k).length = W) :
    ∀ (H j i : Nat), j < H → i < W →
      (((List.range H).map f).flatten).getD (j * W + i) 0 = (f j).getD i 0 := by
  intro H
  induction H with
  | zero => intro j i hj _; exact absurd hj (Nat.not_lt_zero j)
  | succ H ih =>
    intro j i hj hi
    rw [List.range_succ, List.map_append, List.flatten_append]
    simp only [List.map_cons, List.map_nil, List.flatten_cons, List.flatten_nil,
      List.append_nil]
    have hlen := length_flatten_rows f W hW H
    by_cases hjH : j < H
    · have hidx : j * W + i < (((List.range H).map f).flatten).length := by
        rw [hlen]
        have h1 : j * W + i < (j + 1) * W := by
          rw [Nat.succ_mul]
          exact Nat.add_lt_add_left hi (j * W)
        exact Nat.lt_of_lt_of_le h1 (Nat.mul_le_mul_right W hjH)
      rw [List.getD_append _ _ _ _ hidx]
      exact ih j i hjH hi
    · have hjeq : j = H := by omega
      subst hjeq
      rw [List.getD_append_right _ _ _ _ (by rw [hlen]; exact Nat.le_add_right _ _),
        hlen, Nat.add_sub_cancel_left]

/-- C6: for any positive width and height (and a non-null output), the
2D array filler succeeds with status 0 and fills the row-major buffer so
that entry j*width + i is exactly the kernel evaluated at
(x_start + i*step, y_start + j*step). -/
theorem array2d_matches_kernel (pm : List Nat) (x0 y0 : ℝ) (W H : Int)
    (step : ℝ) (i j : Nat) (hW : 0 < W) (hH : 0 < H)
    (hi : i < W.toNat) (hj : j < H.toNat) :
    (simplex_noise_array_2d pm x0 y0 W H step false).1 = 0 ∧
    (simplex_noise_array_2d pm x0 y0 W H step false).2.getD (j * W.toNat + i) 0 =
      simplex_noise_2d pm (x0 + (i : ℝ) * step) (y0 + (j : ℝ) * step) := by
  have hcond : ¬(false = true ∨ W ≤ 0 ∨ H ≤ 0) := by
    push_neg
    exact ⟨Bool.false_ne_true, by omega, by omega⟩
  have hrowlen : ∀ k, (array2d_row pm x0 y0 W.toNat step k).length = W.toNat := by
    intro k
    unfold array2d_row
    rw [List.length_map, List.length_range]
  constructor
  · simp only [simplex_noise_array_2d, if_neg hcond]
  · simp only [simplex_noise_array_2d, if_neg hcond]
    rw [getD_flatten_rows (array2d_row pm x0 y0 W.toNat step) W.toNat hrowlen
      H.toNat j i hj hi]
    rw [List.getD_eq_getElem _ _ (by rw [hrowlen]; exact hi)]
    unfold array2d_row
    rw [List.getElem_map, List.getElem_range]

/-- Witness for array2d_matches_kernel: a 1-by-1 grid at the origin with
unit step, cell (0, 0). -/
theorem array2d_matches_kernel_witness :
    (simplex_noise_array_2d [] 0 0 1 1 1 false).1 = 0 ∧
    (simplex_noise_array_2d [] 0 0 1 1 1 false).2.getD 0 0 =
      simplex_noise_2d [] (0 + ((0 : ℕ) : ℝ) * 1) (0 + ((0 : ℕ) : ℝ) * 1) :=
  array2d_matches_kernel [] 0 0 1 1 1 0 0 (by decide) (by decide) (by decide)
    (by decide)

end SimplexNoise
